/-
Verification of the clinic-management backend.

Shallow embedding of the authentication layer (src/auth.py), the SQLAlchemy
data model (src/models.py) and the FastAPI CRUD handlers (src/main.py),
together with theorems settling the specification claims about them.

Modelling conventions:
  - machine time is seconds since the epoch, as an Int (datetime.utcnow /
    timegm in python-jose work at second precision);
  - Python bytes are List UInt8; str.encode("utf-8") is the core reference
    encoder String.utf8EncodeChar applied characterwise;
  - bcrypt is modelled collision-free but with its documented truncation of
    the password to the first 72 bytes; the random salt is an explicit
    parameter (bcrypt.gensalt draws it from the OS);
  - the HMAC signature of a JWT is modelled abstractly: a signature checks
    out exactly when the verifying key and algorithm equal the signing ones;
  - raised exceptions are Except errors; an HTTPException carries its
    status_code and detail string;
  - the SQLAlchemy session is explicit state passing: every mutating handler
    returns (result, store); db.commit() is atomic, so an error branch
    returns the store it was given (SQLite aborts the failed transaction).
-/

set_option autoImplicit false

deriving instance DecidableEq for Except

namespace ClinicMgmt

/-- Python str.encode("utf-8"): the UTF-8 bytes of a string, via the core
reference encoder for a single character. -/
def utf8Bytes (s : String) : List UInt8 :=
  s.data.flatMap String.utf8EncodeChar

/-! ### bcrypt (the pyca/bcrypt library used by src/auth.py)

bcrypt.hashpw(password, salt) derives a digest from the salt and from the
password truncated to its first 72 bytes (documented behaviour of the bcrypt
algorithm: characters beyond 72 are ignored).  The digest is modelled
collision-free: it is determined by, and determines, the salt and the
truncated password. -/

/-- Number of password bytes the bcrypt algorithm consumes. -/
def bcryptMaxPasswordBytes : Nat := 72

/-- A well-formed bcrypt hash: the salt and the digest of the truncated
password (collision-free model). -/
structure BcryptHash where
  salt : Nat
  digest : List UInt8
deriving DecidableEq

/-- bcrypt.hashpw: digest of the password truncated to 72 bytes, under the
given salt. -/
def bcryptHashpw (password : List UInt8) (salt : Nat) : BcryptHash :=
  ⟨salt, password.take bcryptMaxPasswordBytes⟩

/-- A stored secret string, as held in users.hashed_password: either a valid
modular-crypt serialization of a bcrypt hash, or any other (malformed)
string. -/
inductive Secret where
  | wellFormed (h : BcryptHash)
  | malformed (raw : String)
deriving DecidableEq

/-- Python ValueError, as raised by bcrypt.checkpw on a malformed hash. -/
structure ValueErr where
  msg : String
deriving DecidableEq

/-- bcrypt.checkpw(password, hashed): re-hashes the password with the salt
parsed from the stored secret and compares; raises ValueError when the
stored secret does not parse as a bcrypt hash. -/
def bcryptCheckpw (password : List UInt8) (hashed : Secret) :
    Except ValueErr Bool :=
  match hashed with
  | .malformed _ => .error ⟨"Invalid salt"⟩
  | .wellFormed h => .ok (bcryptHashpw password h.salt == h)

/-! ### src/auth.py: password hashing -/

/-- src/auth.py hash_password: bcrypt.hashpw(password.encode("utf-8"),
bcrypt.gensalt()).decode("utf-8").  The fresh salt is the extra argument. -/
def hash_password (password : String) (salt : Nat) : Secret :=
  .wellFormed (bcryptHashpw (utf8Bytes password) salt)

/-- src/auth.py verify_password: bcrypt.checkpw on the encoded plain
password and the stored secret.  No exception handler: a ValueError from
checkpw propagates to the caller. -/
def verify_password (plain_password : String) (hashed_password : Secret) :
    Except ValueErr Bool :=
  bcryptCheckpw (utf8Bytes plain_password) hashed_password

/-! ### python-jose JWTs (src/auth.py token functions) -/

/-- The claims this application ever encodes: data = {sub, role} in
create_access_token callers, plus the exp claim that create_access_token
adds.  A missing key is none (dict.get returns None). -/
structure Payload where
  sub : Option String
  role : Option String
  exp : Option Int
deriving DecidableEq

/-- A JWT as produced by jose.jwt.encode: the payload together with the
signing key and algorithm.  Signature verification is modelled abstractly:
it succeeds exactly when the verifier supplies the same key and the
algorithm is among those it accepts. -/
structure JWT where
  payload : Payload
  sigKey : String
  sigAlg : String
deriving DecidableEq

/-- jose.exceptions.JWTError (ExpiredSignatureError is a subclass). -/
inductive JoseError where
  | signatureInvalid
  | expiredSignature
deriving DecidableEq

/-- jose.jwt.encode(claims, key, algorithm). -/
def jwtEncode (payload : Payload) (key : String) (alg : String) : JWT :=
  ⟨payload, key, alg⟩

/-- jose.jwt.decode(token, key, algorithms) at current time now: verifies
the signature, then validates the exp claim (leeway 0: expired exactly when
exp < now), returning the decoded payload. -/
def jwtDecode (token : JWT) (key : String) (algs : List String) (now : Int) :
    Except JoseError Payload :=
  if token.sigKey = key ∧ token.sigAlg ∈ algs then
    match token.payload.exp with
    | some exp => if exp < now then .error .expiredSignature else .ok token.payload
    | none => .ok token.payload
  else
    .error .signatureInvalid

/-! ### src/auth.py: JWT configuration and token functions -/

/-- src/auth.py SECRET_KEY. -/
def SECRET_KEY : String := "your-secret-key-here-change-this-in-production"

/-- src/auth.py ALGORITHM. -/
def ALGORITHM : String := "HS256"

/-- FastAPI HTTPException: status code and detail message. -/
structure HTTPError where
  status_code : Nat
  detail : String
deriving DecidableEq

/-- src/auth.py create_access_token(data, expires_delta) at issuance time
now.  Python tests the timedelta for truthiness: expires_delta of None or of
timedelta(0) both fall back to the 15-minute default; otherwise the expiry
is now + expires_delta.  The exp claim is added to a copy of data and the
result is signed with SECRET_KEY / ALGORITHM. -/
def create_access_token (data : Payload) (expires_delta : Option Int)
    (now : Int) : JWT :=
  let expire : Int :=
    match expires_delta with
    | some d => if d = 0 then now + 15 * 60 else now + d
    | none => now + 15 * 60
  jwtEncode { data with exp := some expire } SECRET_KEY ALGORITHM

/-- src/auth.py verify_token at current time now: jwt.decode with
SECRET_KEY and [ALGORITHM]; any JWTError becomes HTTP 401, a payload whose
sub claim is missing becomes HTTP 401, otherwise the decoded payload is
returned. -/
def verify_token (token : JWT) (now : Int) : Except HTTPError Payload :=
  match jwtDecode token SECRET_KEY [ALGORITHM] now with
  | .error _ => .error ⟨401, "Could not validate credentials"⟩
  | .ok payload =>
    match payload.sub with
    | none => .error ⟨401, "Could not validate credentials"⟩
    | some _ => .ok payload

/-! ### src/models.py: table rows

Column types follow models.py; primary keys autoincrement.  Timestamp
columns play no role in any claim and are omitted. -/

/-- models.py Clinic row. -/
structure Clinic where
  clinic_id : Nat
  clinic_name : String
  address : String
  mobile : String
  status : String
deriving DecidableEq

/-- models.py Doctor row. -/
structure Doctor where
  doctor_id : Nat
  doctor_name : String
  mobile : String
  email : String
  address : String
  specialization : String
  status : String
  clinic_id : Nat
deriving DecidableEq

/-- models.py Patient row. -/
structure Patient where
  patient_id : Nat
  patient_name : String
  mobile : String
  age : Int
  gender : String
  status : String
  clinic_id : Nat
  doctor_id : Nat
  doctor_name : String
deriving DecidableEq

/-- models.py PatientConsultation row. -/
structure PatientConsultation where
  consultation_id : Nat
  is_primary : Bool
  consultation_date : Int
  status : String
  clinic_id : Nat
  patient_id : Nat
  doctor_id : Nat
deriving DecidableEq

/-- models.py User row.  The hashed_password column stores the serialized
bcrypt secret. -/
structure User where
  user_id : Nat
  username : String
  email : String
  hashed_password : Secret
  full_name : String
  role : String
  is_active : Bool
deriving DecidableEq

/-- The SQLite database: one list of rows per table, in insertion order. -/
structure Store where
  clinics : List Clinic
  doctors : List Doctor
  patients : List Patient
  consultations : List PatientConsultation
  users : List User
deriving DecidableEq

/-- Autoincrement: the next primary key for a table whose existing keys are
ids (SQLite assigns max rowid + 1). -/
def nextId (ids : List Nat) : Nat :=
  ids.foldr max 0 + 1

/-- Replace the first list element satisfying hit by its image under g
(the ORM updates exactly the row object the query returned). -/
def replaceFirst {α : Type} (hit : α → Bool) (g : α → α) : List α → List α
  | [] => []
  | a :: rest => if hit a then g a :: rest else a :: replaceFirst hit g rest

/-- The unique constraints that models.py declares on the users table:
user_id is the primary key and email is unique.  username carries
index=True but no unique=True, so the schema accepts duplicate usernames. -/
def usersSchemaOk : List User → Bool
  | [] => true
  | u :: rest =>
      rest.all (fun v => u.user_id != v.user_id && u.email != v.email) &&
      usersSchemaOk rest

/-! ### src/schemas.py: request bodies used by the handlers under claim -/

/-- schemas.py ClinicCreate. -/
structure ClinicCreate where
  clinic_name : String
  address : String
  mobile : String
  status : String
deriving DecidableEq

/-- schemas.py PatientCreate. -/
structure PatientCreate where
  patient_name : String
  mobile : String
  age : Int
  gender : String
  status : String
  doctor_id : Nat
  doctor_name : String
deriving DecidableEq

/-- schemas.py PatientUpdate; a none field was not supplied and is dropped
by model_dump(exclude_unset=True). -/
structure PatientUpdate where
  patient_name : Option String
  mobile : Option String
  age : Option Int
  gender : Option String
  status : Option String
  doctor_id : Option Nat
  doctor_name : Option String
deriving DecidableEq

/-- schemas.py DoctorCreate. -/
structure DoctorCreate where
  doctor_name : String
  mobile : String
  email : String
  address : String
  specialization : String
  status : String
deriving DecidableEq

/-- schemas.py ClinicUpdate; a none field was not supplied and is dropped
by model_dump(exclude_unset=True). -/
structure ClinicUpdate where
  clinic_name : Option String
  address : Option String
  mobile : Option String
  status : Option String
deriving DecidableEq

/-- schemas.py DoctorUpdate; a none field was not supplied and is dropped
by model_dump(exclude_unset=True). -/
structure DoctorUpdate where
  doctor_name : Option String
  mobile : Option String
  email : Option String
  address : Option String
  specialization : Option String
  status : Option String
deriving DecidableEq

/-- schemas.py PatientConsultationCreate. -/
structure PatientConsultationCreate where
  is_primary : Bool
  consultation_date : Int
  status : String
deriving DecidableEq

/-- schemas.py UserCreate. -/
structure UserCreate where
  username : String
  email : String
  full_name : String
  password : String
deriving DecidableEq

/-! ### src/main.py handlers

Each mutating handler returns the response (or the HTTPException raised)
paired with the database state after the request; db.commit() is atomic, so
every failing path hands back the store unchanged. -/

/-- main.py create_clinic: builds the row, inserts, commits.  The commit
enforces the unique constraint on clinics.mobile; the IntegrityError text
for it contains "mobile", so that branch of the handler answers 400. -/
def create_clinic (clinic : ClinicCreate) (db : Store) :
    Except HTTPError Clinic × Store :=
  let db_clinic : Clinic :=
    ⟨nextId (db.clinics.map Clinic.clinic_id), clinic.clinic_name,
      clinic.address, clinic.mobile, clinic.status⟩
  if db.clinics.any (fun c => c.mobile == clinic.mobile) then
    (.error ⟨400, "Mobile number already exists. Please use a different number."⟩, db)
  else
    (.ok db_clinic, { db with clinics := db.clinics ++ [db_clinic] })

/-- main.py delete_clinic: 404 when the clinic does not exist, 400 when it
still has doctors, 400 when it still has patients, otherwise the row is
deleted and the transaction committed. -/
def delete_clinic (clinic_id : Nat) (db : Store) :
    Except HTTPError Unit × Store :=
  match db.clinics.find? (fun c => c.clinic_id == clinic_id) with
  | none =>
      (.error ⟨404, "Clinic with id " ++ toString clinic_id ++ " not found"⟩, db)
  | some _ =>
      let doctor_count := (db.doctors.filter (fun d => d.clinic_id == clinic_id)).length
      if doctor_count > 0 then
        (.error ⟨400, "Cannot delete clinic. It has " ++ toString doctor_count ++
          " doctor(s). Delete them first."⟩, db)
      else
        let patient_count := (db.patients.filter (fun p => p.clinic_id == clinic_id)).length
        if patient_count > 0 then
          (.error ⟨400, "Cannot delete clinic. It has " ++ toString patient_count ++
            " patient(s). Delete them first."⟩, db)
        else
          (.ok (),
            { db with clinics := db.clinics.eraseP (fun c => c.clinic_id == clinic_id) })

/-- main.py create_patient: 404 when the clinic does not exist; 404 with
the same "not found in this clinic" detail both when the doctor id matches
no doctor at all and when it matches a doctor of another clinic (the query
filters on doctor_id AND clinic_id at once); then insert and commit, the
commit enforcing the unique constraint on patients.mobile. -/
def create_patient (clinic_id : Nat) (patient : PatientCreate) (db : Store) :
    Except HTTPError Patient × Store :=
  match db.clinics.find? (fun c => c.clinic_id == clinic_id) with
  | none =>
      (.error ⟨404, "Clinic with id " ++ toString clinic_id ++ " not found"⟩, db)
  | some _ =>
      match db.doctors.find?
          (fun d => d.doctor_id == patient.doctor_id && d.clinic_id == clinic_id) with
      | none =>
          (.error ⟨404, "Doctor with id " ++ toString patient.doctor_id ++
            " not found in this clinic"⟩, db)
      | some _ =>
          if db.patients.any (fun p => p.mobile == patient.mobile) then
            (.error ⟨400, "Mobile number already exists. Please use a different number."⟩, db)
          else
            let db_patient : Patient :=
              ⟨nextId (db.patients.map Patient.patient_id), patient.patient_name,
                patient.mobile, patient.age, patient.gender, patient.status,
                clinic_id, patient.doctor_id, patient.doctor_name⟩
            (.ok db_patient, { db with patients := db.patients ++ [db_patient] })

/-- main.py create_doctor_patient_consultation: clinic must exist, the
doctor must exist in that clinic, the patient must exist in that clinic,
then the doctor and then the patient must have status active; only then is
the consultation row inserted and committed. -/
def create_doctor_patient_consultation (clinic_id doctor_id patient_id : Nat)
    (consultation : PatientConsultationCreate) (db : Store) :
    Except HTTPError PatientConsultation × Store :=
  match db.clinics.find? (fun c => c.clinic_id == clinic_id) with
  | none =>
      (.error ⟨404, "Clinic with id " ++ toString clinic_id ++ " not found"⟩, db)
  | some _ =>
      match db.doctors.find?
          (fun d => d.doctor_id == doctor_id && d.clinic_id == clinic_id) with
      | none =>
          (.error ⟨404, "Doctor with id " ++ toString doctor_id ++ " not found"⟩, db)
      | some doctor =>
          match db.patients.find?
              (fun p => p.patient_id == patient_id && p.clinic_id == clinic_id) with
          | none =>
              (.error ⟨404, "Patient with id " ++ toString patient_id ++ " not found"⟩, db)
          | some patient =>
              if doctor.status ≠ "active" then
                (.error ⟨400, "Doctor is not active. Current status: " ++ doctor.status⟩, db)
              else if patient.status ≠ "active" then
                (.error ⟨400, "Patient is not active. Current status: " ++ patient.status⟩, db)
              else
                let db_consultation : PatientConsultation :=
                  ⟨nextId (db.consultations.map PatientConsultation.consultation_id),
                    consultation.is_primary, consultation.consultation_date,
                    consultation.status, clinic_id, patient_id, doctor_id⟩
                (.ok db_consultation,
                  { db with consultations := db.consultations ++ [db_consultation] })

/-- main.py register_user: reject an existing username, then an existing
email, hash the password, insert with role "user" and is_active True, and
commit.  The commit re-checks only the constraints models.py declares on
users: the email unique constraint (the handler's IntegrityError branch for
"username" can never fire, since username has no unique constraint). -/
def register_user (user : UserCreate) (salt : Nat) (db : Store) :
    Except HTTPError User × Store :=
  match db.users.find? (fun u => u.username == user.username) with
  | some _ => (.error ⟨400, "Username already registered"⟩, db)
  | none =>
      match db.users.find? (fun u => u.email == user.email) with
      | some _ => (.error ⟨400, "Email already registered"⟩, db)
      | none =>
          let hashed_pwd := hash_password user.password salt
          if db.users.any (fun u => u.email == user.email) then
            (.error ⟨400, "Email already exists"⟩, db)
          else
            let db_user : User :=
              ⟨nextId (db.users.map User.user_id), user.username, user.email,
                hashed_pwd, user.full_name, "user", true⟩
            (.ok db_user, { db with users := db.users ++ [db_user] })

/-- Apply a PatientUpdate to a row: setattr for each field present in
model_dump(exclude_unset=True). -/
def applyPatientUpdate (upd : PatientUpdate) (p : Patient) : Patient :=
  { p with
    patient_name := upd.patient_name.getD p.patient_name
    mobile := upd.mobile.getD p.mobile
    age := upd.age.getD p.age
    gender := upd.gender.getD p.gender
    status := upd.status.getD p.status
    doctor_id := upd.doctor_id.getD p.doctor_id
    doctor_name := upd.doctor_name.getD p.doctor_name }

/-- main.py update_patient: 404 when the clinic does not exist, 404 when no
patient with that id is in the clinic, then setattr each supplied field and
commit.  This handler has no try/except: when the commit violates the
unique constraint on patients.mobile the IntegrityError propagates out of
the handler, SQLite aborts the transaction (the session is closed by
get_db), and the transport answers a generic 500. -/
def update_patient (clinic_id patient_id : Nat) (patient_update : PatientUpdate)
    (db : Store) : Except HTTPError Patient × Store :=
  match db.clinics.find? (fun c => c.clinic_id == clinic_id) with
  | none =>
      (.error ⟨404, "Clinic id " ++ toString clinic_id ++ " does not exist"⟩, db)
  | some _ =>
      match db.patients.find?
          (fun p => p.clinic_id == clinic_id && p.patient_id == patient_id) with
      | none =>
          (.error ⟨404, "No Patients found for clinic with id " ++ toString clinic_id⟩, db)
      | some patient =>
          let patient' := applyPatientUpdate patient_update patient
          if db.patients.any
              (fun q => q.mobile == patient'.mobile && q.patient_id != patient.patient_id) then
            (.error ⟨500, "Internal Server Error"⟩, db)
          else
            (.ok patient',
              { db with patients :=
                  (replaceFirst
                    (fun p => p.clinic_id == clinic_id && p.patient_id == patient_id)
                    (fun p => applyPatientUpdate patient_update p) db.patients) })

/-- Apply a ClinicUpdate to a row: setattr for each field present in
model_dump(exclude_unset=True). -/
def applyClinicUpdate (upd : ClinicUpdate) (c : Clinic) : Clinic :=
  { c with
    clinic_name := upd.clinic_name.getD c.clinic_name
    address := upd.address.getD c.address
    mobile := upd.mobile.getD c.mobile
    status := upd.status.getD c.status }

/-- Apply a DoctorUpdate to a row: setattr for each field present in
model_dump(exclude_unset=True). -/
def applyDoctorUpdate (upd : DoctorUpdate) (d : Doctor) : Doctor :=
  { d with
    doctor_name := upd.doctor_name.getD d.doctor_name
    mobile := upd.mobile.getD d.mobile
    email := upd.email.getD d.email
    address := upd.address.getD d.address
    specialization := upd.specialization.getD d.specialization
    status := upd.status.getD d.status }

/-- main.py create_doctor: 404 when the clinic does not exist; otherwise
the row is built with the path clinic_id, inserted and committed, the
commit enforcing the unique constraints on doctors.mobile and then
doctors.email (the handler maps each to its 400 response). -/
def create_doctor (clinic_id : Nat) (doctor : DoctorCreate) (db : Store) :
    Except HTTPError Doctor × Store :=
  match db.clinics.find? (fun c => c.clinic_id == clinic_id) with
  | none =>
      (.error ⟨404, "Clinic with id " ++ toString clinic_id ++ " not found"⟩, db)
  | some _ =>
      if db.doctors.any (fun d => d.mobile == doctor.mobile) then
        (.error ⟨400, "Mobile number already exists. Please use a different number."⟩, db)
      else if db.doctors.any (fun d => d.email == doctor.email) then
        (.error ⟨400, "Email already exists. Please use a different email."⟩, db)
      else
        let db_doctor : Doctor :=
          ⟨nextId (db.doctors.map Doctor.doctor_id), doctor.doctor_name, doctor.mobile,
            doctor.email, doctor.address, doctor.specialization, doctor.status, clinic_id⟩
        (.ok db_doctor, { db with doctors := db.doctors ++ [db_doctor] })

/-- main.py update_clinic: 404 when the clinic does not exist, then setattr
each supplied field and commit, the commit enforcing the unique constraint
on clinics.mobile (mapped to the 400 mobile response after rollback). -/
def update_clinic (clinic_id : Nat) (clinic_update : ClinicUpdate) (db : Store) :
    Except HTTPError Clinic × Store :=
  match db.clinics.find? (fun c => c.clinic_id == clinic_id) with
  | none =>
      (.error ⟨404, "Clinic with id " ++ toString clinic_id ++ " not found"⟩, db)
  | some clinic =>
      let clinic' := applyClinicUpdate clinic_update clinic
      if db.clinics.any (fun c => c.mobile == clinic'.mobile && c.clinic_id != clinic.clinic_id) then
        (.error ⟨400, "Mobile number already exists. Please use a different number."⟩, db)
      else
        (.ok clinic',
          { db with clinics :=
              (replaceFirst (fun c => c.clinic_id == clinic_id)
                (fun c => applyClinicUpdate clinic_update c) db.clinics) })

/-- main.py update_doctor: 404 when the clinic does not exist, 404 when no
doctor with that id is in the clinic, then setattr each supplied field and
commit, the commit enforcing the unique constraints on doctors.mobile and
then doctors.email. -/
def update_doctor (clinic_id doctor_id : Nat) (doctor_update : DoctorUpdate)
    (db : Store) : Except HTTPError Doctor × Store :=
  match db.clinics.find? (fun c => c.clinic_id == clinic_id) with
  | none =>
      (.error ⟨404, "Clinic id " ++ toString clinic_id ++ " does not exist"⟩, db)
  | some _ =>
      match db.doctors.find?
          (fun d => d.clinic_id == clinic_id && d.doctor_id == doctor_id) with
      | none =>
          (.error ⟨404, "No doctors found for clinic with id " ++ toString clinic_id⟩, db)
      | some doctor =>
          let doctor' := applyDoctorUpdate doctor_update doctor
          if db.doctors.any
              (fun d => d.mobile == doctor'.mobile && d.doctor_id != doctor.doctor_id) then
            (.error ⟨400, "Mobile number already exists. Please use a different number."⟩, db)
          else if db.doctors.any
              (fun d => d.email == doctor'.email && d.doctor_id != doctor.doctor_id) then
            (.error ⟨400, "Email already exists. Please use a different email."⟩, db)
          else
            (.ok doctor',
              { db with doctors :=
                  (replaceFirst (fun d => d.clinic_id == clinic_id && d.doctor_id == doctor_id)
                    (fun d => applyDoctorUpdate doctor_update d) db.doctors) })

/-- main.py delete_doctor: 404 when the clinic does not exist, 404 when no
doctor with that id is in the clinic, 400 when the doctor still has
patients, 400 when the doctor has consultation history, otherwise the row
is deleted and the transaction committed. -/
def delete_doctor (clinic_id doctor_id : Nat) (db : Store) :
    Except HTTPError Unit × Store :=
  match db.clinics.find? (fun c => c.clinic_id == clinic_id) with
  | none =>
      (.error ⟨404, "Clinic id " ++ toString clinic_id ++ " does not exist"⟩, db)
  | some _ =>
      match db.doctors.find?
          (fun d => d.clinic_id == clinic_id && d.doctor_id == doctor_id) with
      | none =>
          (.error ⟨404, "Doctor with id " ++ toString doctor_id ++ " not found"⟩, db)
      | some _ =>
          let patient_count := (db.patients.filter (fun p => p.doctor_id == doctor_id)).length
          if patient_count > 0 then
            (.error ⟨400, "Cannot delete doctor. They have " ++ toString patient_count ++
              " patient(s). Reassign or delete them first."⟩, db)
          else
            let consultation_count :=
              (db.consultations.filter (fun k => k.doctor_id == doctor_id)).length
            if consultation_count > 0 then
              (.error ⟨400, "Cannot delete doctor. They have " ++ toString consultation_count ++
                " consultation(s) in history."⟩, db)
            else
              (.ok (),
                { db with doctors :=
                    (db.doctors.eraseP
                      (fun d => d.clinic_id == clinic_id && d.doctor_id == doctor_id)) })

/-- main.py delete_patient: the first guard queries the patients table by
clinic_id alone and answers 404 "Clinic id .. does not exist" when the
clinic owns no patient at all; the second finds the patient in the clinic,
its 404 detail interpolating the None that the query just returned
("Doctor with id None not found"); then the row is deleted and committed
(this handler has no exception handler). -/
def delete_patient (clinic_id patient_id : Nat) (db : Store) :
    Except HTTPError Unit × Store :=
  match db.patients.find? (fun p => p.clinic_id == clinic_id) with
  | none =>
      (.error ⟨404, "Clinic id " ++ toString clinic_id ++ " does not exist"⟩, db)
  | some _ =>
      match db.patients.find?
          (fun p => p.clinic_id == clinic_id && p.patient_id == patient_id) with
      | none =>
          (.error ⟨404, "Doctor with id None not found"⟩, db)
      | some _ =>
          (.ok (),
            { db with patients :=
                (db.patients.eraseP
                  (fun p => p.clinic_id == clinic_id && p.patient_id == patient_id)) })

/-- main.py get_doctors_by_clinic: 404 when the clinic does not exist, and
404 (not an empty list) when the clinic has no doctors, because the handler
tests the query result for truthiness. -/
def get_doctors_by_clinic (clinic_id : Nat) (db : Store) :
    Except HTTPError (List Doctor) :=
  match db.clinics.find? (fun c => c.clinic_id == clinic_id) with
  | none =>
      .error ⟨404, "Clinic with id " ++ toString clinic_id ++ " not found"⟩
  | some _ =>
      let doctors := db.doctors.filter (fun d => d.clinic_id == clinic_id)
      if doctors.isEmpty then
        .error ⟨404, "No doctors found for clinic with id " ++ toString clinic_id⟩
      else
        .ok doctors

/-- main.py get_patients_by_clinic: 404 when the clinic does not exist, and
404 (not an empty list) when the clinic has no patients. -/
def get_patients_by_clinic (clinic_id : Nat) (db : Store) :
    Except HTTPError (List Patient) :=
  match db.clinics.find? (fun c => c.clinic_id == clinic_id) with
  | none =>
      .error ⟨404, "Clinic with id " ++ toString clinic_id ++ " not found"⟩
  | some _ =>
      let patients := db.patients.filter (fun p => p.clinic_id == clinic_id)
      if patients.isEmpty then
        .error ⟨404, "No Patients found for clinic with id " ++ toString clinic_id⟩
      else
        .ok patients

/-! ### src/auth.py dependencies: identity resolution and role gating -/

/-- src/auth.py get_current_user: verify the token, look the user up by the
sub claim, 401 when no row matches, 400 when the row is inactive.  The
function only reads the store (its type takes the store and returns no
store: resolution performs no writes). -/
def get_current_user (token : JWT) (now : Int) (db : Store) :
    Except HTTPError User :=
  match verify_token token now with
  | .error e => .error e
  | .ok token_data =>
      match db.users.find? (fun u => token_data.sub == some u.username) with
      | none => .error ⟨401, "User not Found"⟩
      | some user =>
          if !user.is_active then .error ⟨400, "Inactive user"⟩
          else .ok user

/-- src/auth.py require_admin: runs get_current_user first (the dependency
is resolved before the body), then rejects a non-admin role with 403. -/
def require_admin (token : JWT) (now : Int) (db : Store) :
    Except HTTPError User :=
  match get_current_user token now db with
  | .error e => .error e
  | .ok current_user =>
      if current_user.role ≠ "admin" then
        .error ⟨403, "Not enough permissions. Admin access required."⟩
      else
        .ok current_user

/-! ### Concrete sample data, used by the closed instantiations below -/

/-- Sample clinic with id 1. -/
def apolloClinic : Clinic := ⟨1, "Apollo", "Hyderabad", "9876543210", "active"⟩

/-- Sample clinic with id 2. -/
def kimsClinic : Clinic := ⟨2, "KIMS", "Gachibowli", "9876543211", "active"⟩

/-- Doctor 5, employed by clinic 2. -/
def doctorOfClinic2 : Doctor := ⟨5, "Dr X", "9000000001", "x@doc", "Hyd", "ENT", "active", 2⟩

/-- Doctor 7 of clinic 1, whose status is not active. -/
def inactiveDoctor : Doctor := ⟨7, "Dr Y", "9000000002", "y@doc", "Hyd", "ENT", "on_leave", 1⟩

/-- Patient 3 of clinic 1, active, assigned to doctor 7. -/
def activePatient : Patient := ⟨3, "Pat", "9000000003", 30, "F", "active", 1, 7, "Dr Y"⟩

/-- The registered active user alice, role user. -/
def aliceUser : User := ⟨1, "alice", "alice@x", hash_password "secret123" 0, "Alice", "user", true⟩

/-- The registered but inactive admin carol. -/
def carolUser : User := ⟨2, "carol", "carol@x", hash_password "pw2" 0, "Carol", "admin", false⟩

/-- The empty database. -/
def emptyStore : Store := ⟨[], [], [], [], []⟩

/-- A database holding only clinic 1. -/
def lonelyClinicStore : Store := ⟨[apolloClinic], [], [], [], []⟩

/-- Clinics 1 and 2, with doctor 5 employed by clinic 2. -/
def crossTenantStore : Store := ⟨[apolloClinic, kimsClinic], [doctorOfClinic2], [], [], []⟩

/-- Clinic 1 together with a doctor it employs. -/
def clinicWithDoctorStore : Store :=
  ⟨[apolloClinic], [⟨6, "Dr Z", "9000000004", "z@doc", "Hyd", "ENT", "active", 1⟩], [], [], []⟩

/-- Clinic 1, its inactive doctor 7 and its active patient 3. -/
def inactiveDoctorStore : Store := ⟨[apolloClinic], [inactiveDoctor], [activePatient], [], []⟩

/-- Clinic 1 and the user alice. -/
def clinicAndUserStore : Store := ⟨[apolloClinic], [], [], [], [aliceUser]⟩

/-- The users alice (active, role user) and carol (inactive admin). -/
def authStore : Store := ⟨[], [], [], [], [aliceUser, carolUser]⟩

/-- A token signed with a key other than SECRET_KEY. -/
def forgedToken : JWT := ⟨⟨some "alice", some "user", some 100⟩, "wrong-key", "HS256"⟩

/-- A token for alice, ttl 60 seconds, issued at time 0. -/
def aliceToken : JWT := create_access_token ⟨some "alice", some "user", none⟩ (some 60) 0

/-- A token whose subject matches no user row of authStore. -/
def bobToken : JWT := create_access_token ⟨some "bob", some "user", none⟩ (some 60) 0

/-- A token for the inactive admin carol. -/
def carolToken : JWT := create_access_token ⟨some "carol", some "admin", none⟩ (some 60) 0

/-- A patient-creation request naming doctor 5. -/
def patientRequest : PatientCreate := ⟨"Bob", "9000000009", 30, "M", "active", 5, "Dr X"⟩

/-- A consultation-creation request. -/
def consultationRequest : PatientConsultationCreate := ⟨true, 0, "active"⟩

/-- A patient update supplying no fields. -/
def emptyPatientUpdate : PatientUpdate := ⟨none, none, none, none, none, none, none⟩

/-- A clinic-creation request reusing clinic 1's mobile number. -/
def duplicateMobileClinicRequest : ClinicCreate := ⟨"Fortis", "Delhi", "9876543210", "active"⟩

/-- A registration request reusing the username alice. -/
def duplicateUsernameRequest : UserCreate := ⟨"alice", "new@x", "A2", "pw"⟩

/-- Clinic 1 together with a patient it owns (and no doctors). -/
def clinicWithPatientStore : Store := ⟨[apolloClinic], [], [activePatient], [], []⟩

/-- A doctor-creation request. -/
def doctorRequest : DoctorCreate := ⟨"Dr N", "9000000010", "n@doc", "Hyd", "ENT", "active"⟩

/-- A clinic update supplying no fields. -/
def emptyClinicUpdate : ClinicUpdate := ⟨none, none, none, none⟩

/-- A doctor update supplying no fields. -/
def emptyDoctorUpdate : DoctorUpdate := ⟨none, none, none, none, none, none⟩

/-! ### Claim C1: token issuance and verification -/

/-- Claim C1, counterexample to the quantification over every ttl: the
handler tests the timedelta for truthiness, so an explicit ttl of 0 falls
back to the 15-minute default expiry, and verification at time 1 — which
exceeds issuance-time (0) + ttl (0) — still succeeds instead of failing
with InvalidToken. -/
theorem token_zero_ttl_counterexample :
    ((0 : Int) + 0 < 1)
    ∧ verify_token (create_access_token ⟨some "alice", some "user", none⟩ (some 0) 0) 1 =
        .ok ⟨some "alice", some "user", some 900⟩ :=
  ⟨by decide, by decide⟩

/-- Claim C1 (amended to positive ttl): for every subject, role and ttl > 0,
verifying the freshly issued token at issuance time returns the payload with
the encoded subject and role; verifying at any time after issuance + ttl
fails with the 401 invalid-token error; and a token issued with no ttl
carries expiry issuance + 15 minutes. -/
theorem token_issue_verify_lifecycle :
    ∀ (subject role : String) (ttl t0 : Int), 0 < ttl →
      (verify_token (create_access_token ⟨some subject, some role, none⟩ (some ttl) t0) t0 =
        .ok ⟨some subject, some role, some (t0 + ttl)⟩)
      ∧ (∀ t : Int, t0 + ttl < t →
          verify_token (create_access_token ⟨some subject, some role, none⟩ (some ttl) t0) t =
            .error ⟨401, "Could not validate credentials"⟩)
      ∧ (∀ data : Payload,
          (create_access_token data none t0).payload.exp = some (t0 + 15 * 60)) := by
  intro subject role ttl t0 httl
  have hne : ttl ≠ 0 := by omega
  refine ⟨?_, ?_, ?_⟩
  · have hlt : ¬ (t0 + ttl < t0) := by omega
    simp [create_access_token, jwtEncode, verify_token, jwtDecode, hne, hlt]
  · intro t ht
    simp [create_access_token, jwtEncode, verify_token, jwtDecode, hne, ht]
  · intro data
    simp [create_access_token, jwtEncode]

/-- Claim C1, witness: the lifecycle theorem applied to a token for alice
with ttl 60 issued at time 0, verified at times 0 and 61. -/
theorem token_issue_verify_lifecycle_witness :
    ((0 : Int) < 60)
    ∧ verify_token (create_access_token ⟨some "alice", some "user", none⟩ (some 60) 0) 0 =
        .ok ⟨some "alice", some "user", some (0 + 60)⟩
    ∧ verify_token (create_access_token ⟨some "alice", some "user", none⟩ (some 60) 0) 61 =
        .error ⟨401, "Could not validate credentials"⟩ := by
  refine ⟨by decide, (token_issue_verify_lifecycle "alice" "user" 60 0 (by decide)).1, ?_⟩
  exact (token_issue_verify_lifecycle "alice" "user" 60 0 (by decide)).2.1 61 (by decide)

/-! ### Claim C2: password hashing round trip -/

/-- Claim C2, counterexample to "distinct passwords never verify": bcrypt
ignores every password byte beyond the 72nd, so a 73-a password verifies
against the hash of the 72-a password although the two differ. -/
theorem password_truncation_counterexample :
    ("aaaaaaaaaaaaaaaaaaaaaaaaaaaaaaaaaaaaaaaaaaaaaaaaaaaaaaaaaaaaaaaaaaaaaaaaa" : String) ≠
      "aaaaaaaaaaaaaaaaaaaaaaaaaaaaaaaaaaaaaaaaaaaaaaaaaaaaaaaaaaaaaaaaaaaaaaaa"
    ∧ verify_password "aaaaaaaaaaaaaaaaaaaaaaaaaaaaaaaaaaaaaaaaaaaaaaaaaaaaaaaaaaaaaaaaaaaaaaaaa"
        (hash_password "aaaaaaaaaaaaaaaaaaaaaaaaaaaaaaaaaaaaaaaaaaaaaaaaaaaaaaaaaaaaaaaaaaaaaaaa" 0) =
      .ok true :=
  ⟨by decide, by decide⟩

/-- Claim C2 (amended to the first 72 password bytes): for every password p
and salt, verify_password accepts p against hash_password p; and p verifies
against the hash of q exactly when the first 72 UTF-8 bytes of p and q
agree (respectively, is rejected exactly when they differ). -/
theorem password_roundtrip_first72 :
    (∀ (p : String) (salt : Nat), verify_password p (hash_password p salt) = .ok true)
    ∧ (∀ (p q : String) (salt : Nat),
        (verify_password p (hash_password q salt) = .ok true ↔
          (utf8Bytes p).take bcryptMaxPasswordBytes = (utf8Bytes q).take bcryptMaxPasswordBytes)
        ∧ (verify_password p (hash_password q salt) = .ok false ↔
          (utf8Bytes p).take bcryptMaxPasswordBytes ≠ (utf8Bytes q).take bcryptMaxPasswordBytes)) := by
  constructor
  · intro p salt
    simp [verify_password, bcryptCheckpw, hash_password, bcryptHashpw]
  · intro p q salt
    constructor
    · simp [verify_password, bcryptCheckpw, hash_password, bcryptHashpw, BcryptHash.mk.injEq]
    · simp [verify_password, bcryptCheckpw, hash_password, bcryptHashpw, BcryptHash.mk.injEq]

/-! ### Claim C8: totality of verify_password -/

/-- Claim C8, counterexample to "never crashes the caller": on a malformed
stored secret, verify_password propagates bcrypt.checkpw's ValueError to
its caller instead of returning false (there is no exception handler in
src/auth.py verify_password). -/
theorem verify_password_malformed_counterexample :
    verify_password "password123" (Secret.malformed "not-a-bcrypt-hash") =
      .error ⟨"Invalid salt"⟩
    ∧ verify_password "password123" (Secret.malformed "not-a-bcrypt-hash") ≠ .ok false :=
  ⟨by decide, by decide⟩

/-- Claim C8 (amended): on a well-formed stored secret verify_password
always returns a boolean — in particular, a mismatching password yields
ok false, never an exception — but on a malformed stored secret it raises
ValueError, which propagates to the caller uncaught. -/
theorem verify_password_totality :
    (∀ (p : String) (h : BcryptHash), ∃ b : Bool,
      verify_password p (.wellFormed h) = .ok b)
    ∧ (∀ (p q : String) (salt : Nat),
        (utf8Bytes p).take bcryptMaxPasswordBytes ≠ (utf8Bytes q).take bcryptMaxPasswordBytes →
        verify_password p (hash_password q salt) = .ok false)
    ∧ (∀ (p raw : String),
        verify_password p (.malformed raw) = .error ⟨"Invalid salt"⟩) := by
  refine ⟨?_, ?_, ?_⟩
  · intro p h
    exact ⟨_, rfl⟩
  · intro p q salt hne
    simp [verify_password, bcryptCheckpw, hash_password, bcryptHashpw, BcryptHash.mk.injEq, hne]
  · intro p raw
    rfl

/-- Claim C8, witness: the totality theorem applied to the mismatching
passwords alpha and beta. -/
theorem verify_password_totality_witness :
    (utf8Bytes "alpha").take bcryptMaxPasswordBytes ≠
      (utf8Bytes "beta").take bcryptMaxPasswordBytes
    ∧ verify_password "alpha" (hash_password "beta" 3) = .ok false :=
  ⟨by decide, verify_password_totality.2.1 "alpha" "beta" 3 (by decide)⟩

/-! ### Claim C3: clinic deletion -/

/-- Claim C3: delete_clinic succeeds exactly when the clinic exists and
both its doctor count and its patient count are zero; a delete blocked by
at least one doctor fails with exactly the 400 dependent-records error
naming the doctor count, a delete blocked by at least one patient (and no
doctor) fails with exactly the 400 dependent-records error naming the
patient count, and every failing call leaves the store — and so the clinic
row — unchanged. -/
theorem delete_clinic_succeeds_iff_no_dependents :
    ∀ (clinic_id : Nat) (db : Store),
      ((delete_clinic clinic_id db).1 = .ok () ↔
        ((db.clinics.find? (fun c => c.clinic_id == clinic_id)).isSome
          ∧ (db.doctors.filter (fun d => d.clinic_id == clinic_id)).length = 0
          ∧ (db.patients.filter (fun p => p.clinic_id == clinic_id)).length = 0))
      ∧ ((db.clinics.find? (fun c => c.clinic_id == clinic_id)).isSome →
          (db.doctors.filter (fun d => d.clinic_id == clinic_id)).length > 0 →
          (delete_clinic clinic_id db).1 =
            .error ⟨400, "Cannot delete clinic. It has " ++
              toString (db.doctors.filter (fun d => d.clinic_id == clinic_id)).length ++
              " doctor(s). Delete them first."⟩)
      ∧ ((db.clinics.find? (fun c => c.clinic_id == clinic_id)).isSome →
          (db.doctors.filter (fun d => d.clinic_id == clinic_id)).length = 0 →
          (db.patients.filter (fun p => p.clinic_id == clinic_id)).length > 0 →
          (delete_clinic clinic_id db).1 =
            .error ⟨400, "Cannot delete clinic. It has " ++
              toString (db.patients.filter (fun p => p.clinic_id == clinic_id)).length ++
              " patient(s). Delete them first."⟩)
      ∧ (∀ e, (delete_clinic clinic_id db).1 = .error e → (delete_clinic clinic_id db).2 = db) := by
  intro clinic_id db
  refine ⟨?_, ?_, ?_, ?_⟩
  · unfold delete_clinic
    cases hfind : db.clinics.find? (fun c => c.clinic_id == clinic_id) with
    | none => simp
    | some c =>
        dsimp only
        by_cases hd : (db.doctors.filter (fun d => d.clinic_id == clinic_id)).length > 0
        · rw [if_pos hd]
          constructor
          · intro h
            exact Except.noConfusion h
          · rintro ⟨-, h0, -⟩
            omega
        · rw [if_neg hd]
          by_cases hp : (db.patients.filter (fun p => p.clinic_id == clinic_id)).length > 0
          · rw [if_pos hp]
            constructor
            · intro h
              exact Except.noConfusion h
            · rintro ⟨-, -, h0⟩
              omega
          · rw [if_neg hp]
            constructor
            · intro _
              exact ⟨rfl, by omega, by omega⟩
            · intro _
              rfl
  · intro hsome hd
    unfold delete_clinic
    cases hfind : db.clinics.find? (fun c => c.clinic_id == clinic_id) with
    | none => rw [hfind] at hsome; simp at hsome
    | some c =>
        dsimp only
        rw [if_pos hd]
  · intro hsome hd0 hp
    unfold delete_clinic
    cases hfind : db.clinics.find? (fun c => c.clinic_id == clinic_id) with
    | none => rw [hfind] at hsome; simp at hsome
    | some c =>
        dsimp only
        have hdneg : ¬ (db.doctors.filter (fun d => d.clinic_id == clinic_id)).length > 0 := by
          omega
        rw [if_neg hdneg, if_pos hp]
  · intro e
    unfold delete_clinic
    cases hfind : db.clinics.find? (fun c => c.clinic_id == clinic_id) with
    | none => intro _; rfl
    | some c =>
        by_cases hd : (db.doctors.filter (fun d => d.clinic_id == clinic_id)).length > 0
        · simp [hd]
        · by_cases hp : (db.patients.filter (fun p => p.clinic_id == clinic_id)).length > 0
          · simp [hd, hp]
          · simp [hd, hp]

/-- Claim C3, witness: deleting clinic 1 while it employs one doctor fails
with the dependent-records error naming the doctor count, deleting clinic 1
while it owns one patient (and no doctor) fails with the dependent-records
error naming the patient count, and the blocked delete leaves the store
unchanged. -/
theorem delete_clinic_dependents_witness :
    (delete_clinic 1 clinicWithDoctorStore).1 =
      .error ⟨400, "Cannot delete clinic. It has " ++ toString 1 ++ " doctor(s). Delete them first."⟩
    ∧ (delete_clinic 1 clinicWithPatientStore).1 =
      .error ⟨400, "Cannot delete clinic. It has " ++ toString 1 ++ " patient(s). Delete them first."⟩
    ∧ (delete_clinic 1 clinicWithDoctorStore).2 = clinicWithDoctorStore := by
  refine ⟨?_, ?_, ?_⟩
  · exact (delete_clinic_succeeds_iff_no_dependents 1 clinicWithDoctorStore).2.1
      (by decide) (by decide)
  · exact (delete_clinic_succeeds_iff_no_dependents 1 clinicWithPatientStore).2.2.1
      (by decide) (by decide) (by decide)
  · exact (delete_clinic_succeeds_iff_no_dependents 1 clinicWithDoctorStore).2.2.2
      ⟨400, "Cannot delete clinic. It has " ++ toString 1 ++ " doctor(s). Delete them first."⟩
      (by decide)

/-! ### Claim C4: patient creation and the missing CrossTenantReference -/

/-- Claim C4, counterexample to the distinct error kind: doctor 5 exists
and belongs to clinic 2, yet creating a patient under clinic 1 with doctor
5 produces exactly the same 404 doctor-not-found error as creating it in a
store where doctor 5 does not exist at all — the handler raises no distinct
CrossTenantReference. -/
theorem create_patient_no_crosstenant_kind :
    crossTenantStore.doctors.find? (fun d => d.doctor_id == 5) = some doctorOfClinic2
    ∧ doctorOfClinic2.clinic_id = 2
    ∧ (create_patient 1 patientRequest crossTenantStore).1 =
        .error ⟨404, "Doctor with id " ++ toString 5 ++ " not found in this clinic"⟩
    ∧ (create_patient 1 patientRequest crossTenantStore).1 =
        (create_patient 1 patientRequest lonelyClinicStore).1 :=
  ⟨by decide, by decide, by decide, by decide⟩

/-- Claim C4 (amended): creating a patient fails with a 404 clinic-not-found
error when the clinic is missing, and with the one 404 doctor-not-found
error both when the doctor is absent and when it belongs to another clinic
(the lookup filters on doctor id and clinic id together); every failing
call leaves the store unchanged, so no patient row is created. -/
theorem create_patient_notfound_errors :
    ∀ (clinic_id : Nat) (pc : PatientCreate) (db : Store),
      (db.clinics.find? (fun c => c.clinic_id == clinic_id) = none →
        (create_patient clinic_id pc db).1 =
          .error ⟨404, "Clinic with id " ++ toString clinic_id ++ " not found"⟩)
      ∧ ((db.clinics.find? (fun c => c.clinic_id == clinic_id)).isSome →
          db.doctors.find? (fun d => d.doctor_id == pc.doctor_id && d.clinic_id == clinic_id) = none →
          (create_patient clinic_id pc db).1 =
            .error ⟨404, "Doctor with id " ++ toString pc.doctor_id ++ " not found in this clinic"⟩)
      ∧ (∀ e, (create_patient clinic_id pc db).1 = .error e →
          (create_patient clinic_id pc db).2 = db) := by
  intro clinic_id pc db
  refine ⟨?_, ?_, ?_⟩
  · intro hnone
    unfold create_patient
    simp [hnone]
  · intro hsome hdoc
    unfold create_patient
    cases hfind : db.clinics.find? (fun c => c.clinic_id == clinic_id) with
    | none => rw [hfind] at hsome; simp at hsome
    | some c => simp [hdoc]
  · intro e
    unfold create_patient
    cases hfind : db.clinics.find? (fun c => c.clinic_id == clinic_id) with
    | none => intro _; rfl
    | some c =>
        dsimp only
        cases hdoc : db.doctors.find?
            (fun d => d.doctor_id == pc.doctor_id && d.clinic_id == clinic_id) with
        | none => intro _; rfl
        | some d =>
            by_cases hm : db.patients.any (fun p => p.mobile == pc.mobile)
            · simp [hm]
            · simp [hm]

/-- Claim C4, witness: the amended theorem applied to the empty store (no
clinic) and to the cross-tenant store (doctor 5 in clinic 2). -/
theorem create_patient_notfound_witness :
    (create_patient 1 patientRequest emptyStore).1 =
      .error ⟨404, "Clinic with id " ++ toString 1 ++ " not found"⟩
    ∧ (create_patient 1 patientRequest crossTenantStore).1 =
        .error ⟨404, "Doctor with id " ++ toString 5 ++ " not found in this clinic"⟩
    ∧ (create_patient 1 patientRequest crossTenantStore).2 = crossTenantStore := by
  refine ⟨(create_patient_notfound_errors 1 patientRequest emptyStore).1 (by decide), ?_, ?_⟩
  · exact (create_patient_notfound_errors 1 patientRequest crossTenantStore).2.1
      (by decide) (by decide)
  · exact (create_patient_notfound_errors 1 patientRequest crossTenantStore).2.2
      ⟨404, "Doctor with id " ++ toString 5 ++ " not found in this clinic"⟩ (by decide)

/-! ### Claim C5: consultation creation guards -/

/-- Claim C5: creating a consultation succeeds exactly when the clinic
exists, a doctor with the given id belongs to it, a patient with the given
id belongs to it, and both have status active; moreover whenever the clinic
exists, the doctor is found in the clinic but is not active, and the
patient is found in the clinic (whatever its status), the call fails with
the doctor-inactive 400 error. -/
theorem create_consultation_guards :
    ∀ (clinic_id doctor_id patient_id : Nat) (con : PatientConsultationCreate) (db : Store),
      ((∃ r, (create_doctor_patient_consultation clinic_id doctor_id patient_id con db).1 = .ok r) ↔
        ((db.clinics.find? (fun c => c.clinic_id == clinic_id)).isSome
          ∧ (∃ d, db.doctors.find? (fun x => x.doctor_id == doctor_id && x.clinic_id == clinic_id) = some d
              ∧ d.status = "active")
          ∧ (∃ p, db.patients.find? (fun x => x.patient_id == patient_id && x.clinic_id == clinic_id) = some p
              ∧ p.status = "active")))
      ∧ (∀ d, (db.clinics.find? (fun c => c.clinic_id == clinic_id)).isSome →
          db.doctors.find? (fun x => x.doctor_id == doctor_id && x.clinic_id == clinic_id) = some d →
          (db.patients.find? (fun x => x.patient_id == patient_id && x.clinic_id == clinic_id)).isSome →
          d.status ≠ "active" →
          (create_doctor_patient_consultation clinic_id doctor_id patient_id con db).1 =
            .error ⟨400, "Doctor is not active. Current status: " ++ d.status⟩) := by
  intro clinic_id doctor_id patient_id con db
  constructor
  · unfold create_doctor_patient_consultation
    cases hc : db.clinics.find? (fun c => c.clinic_id == clinic_id) with
    | none => simp
    | some c =>
        dsimp only
        cases hd : db.doctors.find? (fun x => x.doctor_id == doctor_id && x.clinic_id == clinic_id) with
        | none => simp
        | some d =>
            dsimp only
            cases hp : db.patients.find? (fun x => x.patient_id == patient_id && x.clinic_id == clinic_id) with
            | none => simp
            | some p =>
                by_cases hds : d.status = "active"
                · by_cases hps : p.status = "active"
                  · simp [hds, hps]
                  · simp [hds, hps]
                · simp [hds]
  · intro d hsome hd hpsome hds
    unfold create_doctor_patient_consultation
    cases hc : db.clinics.find? (fun c => c.clinic_id == clinic_id) with
    | none => rw [hc] at hsome; simp at hsome
    | some c =>
        dsimp only
        rw [hd]
        dsimp only
        cases hp : db.patients.find? (fun x => x.patient_id == patient_id && x.clinic_id == clinic_id) with
        | none => rw [hp] at hpsome; simp at hpsome
        | some p => simp [hds]

/-- Claim C5, witness: the guard theorem applied to clinic 1, its inactive
doctor 7 and its active patient 3. -/
theorem create_consultation_inactive_doctor_witness :
    (create_doctor_patient_consultation 1 7 3 consultationRequest inactiveDoctorStore).1 =
      .error ⟨400, "Doctor is not active. Current status: " ++ inactiveDoctor.status⟩ :=
  (create_consultation_guards 1 7 3 consultationRequest inactiveDoctorStore).2 inactiveDoctor
    (by decide) (by decide) (by decide) (by decide)

/-! ### Claim C6: identity resolution before role gating -/

/-- Helper: every error raised by verify_token is an HTTP 401. -/
theorem verifyTokenError401 (token : JWT) (now : Int) (e : HTTPError)
    (h : verify_token token now = .error e) : e.status_code = 401 := by
  unfold verify_token at h
  split at h
  · cases h; rfl
  · split at h
    · cases h; rfl
    · cases h

/-- Helper: every error raised by get_current_user is an HTTP 401 or 400. -/
theorem getCurrentUserErrorStatus (token : JWT) (now : Int) (db : Store)
    (e : HTTPError) (h : get_current_user token now db = .error e) :
    e.status_code = 401 ∨ e.status_code = 400 := by
  unfold get_current_user at h
  cases hv : verify_token token now with
  | error e2 =>
      rw [hv] at h
      simp at h
      subst h
      exact Or.inl (verifyTokenError401 token now e2 hv)
  | ok p =>
      rw [hv] at h
      dsimp only at h
      cases hf : db.users.find? (fun u => p.sub == some u.username) with
      | none =>
          rw [hf] at h
          simp at h
          subst h
          exact Or.inl rfl
      | some u =>
          rw [hf] at h
          by_cases hact : u.is_active
          · simp [hact] at h
          · simp [hact] at h
            subst h
            exact Or.inr rfl

/-- Claim C6: identity resolution verifies the token first (a verification
error is returned unchanged by both get_current_user and require_admin),
then fails 401 when no user row matches the subject claim, then fails 400
when the matched user is inactive regardless of role; and require_admin
returns its 403 role error only when resolution succeeded with a non-admin
user, so resolution failures always take precedence.  Resolution is
read-only: both functions consume the store and return no store. -/
theorem identity_resolution_precedence :
    ∀ (token : JWT) (now : Int) (db : Store),
      (∀ e, verify_token token now = .error e →
        get_current_user token now db = .error e ∧ require_admin token now db = .error e)
      ∧ (∀ p, verify_token token now = .ok p →
          db.users.find? (fun u => p.sub == some u.username) = none →
          get_current_user token now db = .error ⟨401, "User not Found"⟩
          ∧ require_admin token now db = .error ⟨401, "User not Found"⟩)
      ∧ (∀ p u, verify_token token now = .ok p →
          db.users.find? (fun v => p.sub == some v.username) = some u →
          u.is_active = false →
          get_current_user token now db = .error ⟨400, "Inactive user"⟩
          ∧ require_admin token now db = .error ⟨400, "Inactive user"⟩)
      ∧ (require_admin token now db =
            .error ⟨403, "Not enough permissions. Admin access required."⟩ →
          ∃ u, get_current_user token now db = .ok u ∧ u.role ≠ "admin") := by
  intro token now db
  refine ⟨?_, ?_, ?_, ?_⟩
  · intro e he
    constructor
    · simp [get_current_user, he]
    · simp [require_admin, get_current_user, he]
  · intro p hp hfind
    constructor
    · simp [get_current_user, hp, hfind]
    · simp [require_admin, get_current_user, hp, hfind]
  · intro p u hp hfind hact
    constructor
    · simp [get_current_user, hp, hfind, hact]
    · simp [require_admin, get_current_user, hp, hfind, hact]
  · intro h403
    unfold require_admin at h403
    cases hg : get_current_user token now db with
    | error e =>
        rw [hg] at h403
        simp at h403
        have hst := getCurrentUserErrorStatus token now db e hg
        subst h403
        simp at hst
    | ok u =>
        rw [hg] at h403
        by_cases hrole : u.role = "admin"
        · simp [hrole] at h403
        · exact ⟨u, rfl, hrole⟩

/-- Claim C6, witness: the precedence theorem applied to a forged token, a
token for an unknown subject, a token for the inactive admin carol, and a
valid token for the active non-admin alice. -/
theorem identity_resolution_precedence_witness :
    (get_current_user forgedToken 0 authStore = .error ⟨401, "Could not validate credentials"⟩
      ∧ require_admin forgedToken 0 authStore = .error ⟨401, "Could not validate credentials"⟩)
    ∧ (get_current_user bobToken 0 authStore = .error ⟨401, "User not Found"⟩
      ∧ require_admin bobToken 0 authStore = .error ⟨401, "User not Found"⟩)
    ∧ (get_current_user carolToken 0 authStore = .error ⟨400, "Inactive user"⟩
      ∧ require_admin carolToken 0 authStore = .error ⟨400, "Inactive user"⟩)
    ∧ (∃ u, get_current_user aliceToken 0 authStore = .ok u ∧ u.role ≠ "admin") := by
  refine ⟨?_, ?_, ?_, ?_⟩
  · exact (identity_resolution_precedence forgedToken 0 authStore).1
      ⟨401, "Could not validate credentials"⟩ (by decide)
  · exact (identity_resolution_precedence bobToken 0 authStore).2.1
      ⟨some "bob", some "user", some 60⟩ (by decide) (by decide)
  · exact (identity_resolution_precedence carolToken 0 authStore).2.2.1
      ⟨some "carol", some "admin", some 60⟩ carolUser (by decide) (by decide) (by decide)
  · exact (identity_resolution_precedence aliceToken 0 authStore).2.2.2 (by decide)

/-! ### Claim C7: failed mutations leave the store unchanged -/

/-- Claim C7: for every mutating handler of src/main.py — clinic create,
update and delete, doctor create, update and delete, patient create, update
and delete, consultation create, and user registration — every call that
returns an error hands back the store it was given: the single commit is
atomic, so no failing path publishes a partial write and no entity is left
half-constructed. -/
theorem failed_mutation_leaves_store_unchanged :
    ∀ (db : Store),
      (∀ (cc : ClinicCreate) (e : HTTPError),
        (create_clinic cc db).1 = .error e → (create_clinic cc db).2 = db)
      ∧ (∀ (clinic_id : Nat) (e : HTTPError),
          (delete_clinic clinic_id db).1 = .error e → (delete_clinic clinic_id db).2 = db)
      ∧ (∀ (clinic_id : Nat) (pc : PatientCreate) (e : HTTPError),
          (create_patient clinic_id pc db).1 = .error e → (create_patient clinic_id pc db).2 = db)
      ∧ (∀ (clinic_id doctor_id patient_id : Nat) (con : PatientConsultationCreate) (e : HTTPError),
          (create_doctor_patient_consultation clinic_id doctor_id patient_id con db).1 = .error e →
          (create_doctor_patient_consultation clinic_id doctor_id patient_id con db).2 = db)
      ∧ (∀ (uc : UserCreate) (salt : Nat) (e : HTTPError),
          (register_user uc salt db).1 = .error e → (register_user uc salt db).2 = db)
      ∧ (∀ (clinic_id patient_id : Nat) (upd : PatientUpdate) (e : HTTPError),
          (update_patient clinic_id patient_id upd db).1 = .error e →
          (update_patient clinic_id patient_id upd db).2 = db)
      ∧ (∀ (clinic_id : Nat) (dc : DoctorCreate) (e : HTTPError),
          (create_doctor clinic_id dc db).1 = .error e → (create_doctor clinic_id dc db).2 = db)
      ∧ (∀ (clinic_id : Nat) (upd : ClinicUpdate) (e : HTTPError),
          (update_clinic clinic_id upd db).1 = .error e → (update_clinic clinic_id upd db).2 = db)
      ∧ (∀ (clinic_id doctor_id : Nat) (upd : DoctorUpdate) (e : HTTPError),
          (update_doctor clinic_id doctor_id upd db).1 = .error e →
          (update_doctor clinic_id doctor_id upd db).2 = db)
      ∧ (∀ (clinic_id doctor_id : Nat) (e : HTTPError),
          (delete_doctor clinic_id doctor_id db).1 = .error e →
          (delete_doctor clinic_id doctor_id db).2 = db)
      ∧ (∀ (clinic_id patient_id : Nat) (e : HTTPError),
          (delete_patient clinic_id patient_id db).1 = .error e →
          (delete_patient clinic_id patient_id db).2 = db) := by
  intro db
  refine ⟨?_, ?_, ?_, ?_, ?_, ?_, ?_, ?_, ?_, ?_, ?_⟩
  · intro cc e
    unfold create_clinic
    by_cases hm : db.clinics.any (fun c => c.mobile == cc.mobile)
    · simp [hm]
    · simp [hm]
  · intro clinic_id e
    unfold delete_clinic
    cases hfind : db.clinics.find? (fun c => c.clinic_id == clinic_id) with
    | none => intro _; rfl
    | some c =>
        by_cases hd : (db.doctors.filter (fun d => d.clinic_id == clinic_id)).length > 0
        · simp [hd]
        · by_cases hp : (db.patients.filter (fun p => p.clinic_id == clinic_id)).length > 0
          · simp [hd, hp]
          · simp [hd, hp]
  · intro clinic_id pc e
    unfold create_patient
    cases hfind : db.clinics.find? (fun c => c.clinic_id == clinic_id) with
    | none => intro _; rfl
    | some c =>
        dsimp only
        cases hdoc : db.doctors.find?
            (fun d => d.doctor_id == pc.doctor_id && d.clinic_id == clinic_id) with
        | none => intro _; rfl
        | some d =>
            by_cases hm : db.patients.any (fun p => p.mobile == pc.mobile)
            · simp [hm]
            · simp [hm]
  · intro clinic_id doctor_id patient_id con e
    unfold create_doctor_patient_consultation
    cases hc : db.clinics.find? (fun c => c.clinic_id == clinic_id) with
    | none => intro _; rfl
    | some c =>
        dsimp only
        cases hd : db.doctors.find? (fun x => x.doctor_id == doctor_id && x.clinic_id == clinic_id) with
        | none => intro _; rfl
        | some d =>
            dsimp only
            cases hp : db.patients.find? (fun x => x.patient_id == patient_id && x.clinic_id == clinic_id) with
            | none => intro _; rfl
            | some p =>
                by_cases hds : d.status = "active"
                · by_cases hps : p.status = "active"
                  · simp [hds, hps]
                  · simp [hds, hps]
                · simp [hds]
  · intro uc salt e
    unfold register_user
    cases hu : db.users.find? (fun u => u.username == uc.username) with
    | some u => intro _; rfl
    | none =>
        dsimp only
        cases he : db.users.find? (fun u => u.email == uc.email) with
        | some u => intro _; rfl
        | none =>
            by_cases hm : db.users.any (fun u => u.email == uc.email)
            · simp [hm]
            · simp [hm]
  · intro clinic_id patient_id upd e
    unfold update_patient
    cases hc : db.clinics.find? (fun c => c.clinic_id == clinic_id) with
    | none => intro _; rfl
    | some c =>
        dsimp only
        cases hp : db.patients.find? (fun p => p.clinic_id == clinic_id && p.patient_id == patient_id) with
        | none => intro _; rfl
        | some p =>
            by_cases hm : db.patients.any
                (fun q => q.mobile == (applyPatientUpdate upd p).mobile && q.patient_id != p.patient_id)
            · simp [hm]
            · simp [hm]
  · intro clinic_id dc e
    unfold create_doctor
    cases hfind : db.clinics.find? (fun c => c.clinic_id == clinic_id) with
    | none => intro _; rfl
    | some c =>
        dsimp only
        by_cases hm : db.doctors.any (fun d => d.mobile == dc.mobile)
        · simp [hm]
        · by_cases he2 : db.doctors.any (fun d => d.email == dc.email)
          · simp [hm, he2]
          · simp [hm, he2]
  · intro clinic_id upd e
    unfold update_clinic
    cases hfind : db.clinics.find? (fun c => c.clinic_id == clinic_id) with
    | none => intro _; rfl
    | some c =>
        dsimp only
        by_cases hm : db.clinics.any
            (fun x => x.mobile == (applyClinicUpdate upd c).mobile && x.clinic_id != c.clinic_id)
        · simp [hm]
        · simp [hm]
  · intro clinic_id doctor_id upd e
    unfold update_doctor
    cases hc : db.clinics.find? (fun c => c.clinic_id == clinic_id) with
    | none => intro _; rfl
    | some c =>
        dsimp only
        cases hd : db.doctors.find? (fun d => d.clinic_id == clinic_id && d.doctor_id == doctor_id) with
        | none => intro _; rfl
        | some d =>
            by_cases hm : db.doctors.any
                (fun x => x.mobile == (applyDoctorUpdate upd d).mobile && x.doctor_id != d.doctor_id)
            · simp [hm]
            · by_cases he2 : db.doctors.any
                  (fun x => x.email == (applyDoctorUpdate upd d).email && x.doctor_id != d.doctor_id)
              · simp [hm, he2]
              · simp [hm, he2]
  · intro clinic_id doctor_id e
    unfold delete_doctor
    cases hc : db.clinics.find? (fun c => c.clinic_id == clinic_id) with
    | none => intro _; rfl
    | some c =>
        dsimp only
        cases hd : db.doctors.find? (fun d => d.clinic_id == clinic_id && d.doctor_id == doctor_id) with
        | none => intro _; rfl
        | some d =>
            by_cases hp : (db.patients.filter (fun p => p.doctor_id == doctor_id)).length > 0
            · simp [hp]
            · by_cases hk : (db.consultations.filter (fun k => k.doctor_id == doctor_id)).length > 0
              · simp [hp, hk]
              · simp [hp, hk]
  · intro clinic_id patient_id e
    unfold delete_patient
    cases hc : db.patients.find? (fun p => p.clinic_id == clinic_id) with
    | none => intro _; rfl
    | some p0 =>
        dsimp only
        cases hp : db.patients.find? (fun p => p.clinic_id == clinic_id && p.patient_id == patient_id) with
        | none => intro _; rfl
        | some p => simp

/-- Claim C7, witness: eleven failing calls against the store holding
clinic 1 and the user alice — duplicate clinic mobile on create, unknown
clinic on clinic deletion and update, doctor and patient and consultation
creation under an unknown clinic, doctor update and deletion under an
unknown clinic, duplicate username registration, and patient update and
deletion under an unknown clinic — each leaving the store unchanged. -/
theorem failed_mutation_witness :
    (create_clinic duplicateMobileClinicRequest clinicAndUserStore).2 = clinicAndUserStore
    ∧ (delete_clinic 99 clinicAndUserStore).2 = clinicAndUserStore
    ∧ (create_patient 99 patientRequest clinicAndUserStore).2 = clinicAndUserStore
    ∧ (create_doctor_patient_consultation 99 7 3 consultationRequest clinicAndUserStore).2 =
        clinicAndUserStore
    ∧ (register_user duplicateUsernameRequest 1 clinicAndUserStore).2 = clinicAndUserStore
    ∧ (update_patient 99 3 emptyPatientUpdate clinicAndUserStore).2 = clinicAndUserStore
    ∧ (create_doctor 99 doctorRequest clinicAndUserStore).2 = clinicAndUserStore
    ∧ (update_clinic 99 emptyClinicUpdate clinicAndUserStore).2 = clinicAndUserStore
    ∧ (update_doctor 99 1 emptyDoctorUpdate clinicAndUserStore).2 = clinicAndUserStore
    ∧ (delete_doctor 99 1 clinicAndUserStore).2 = clinicAndUserStore
    ∧ (delete_patient 99 3 clinicAndUserStore).2 = clinicAndUserStore := by
  refine ⟨?_, ?_, ?_, ?_, ?_, ?_, ?_, ?_, ?_, ?_, ?_⟩
  · exact (failed_mutation_leaves_store_unchanged clinicAndUserStore).1
      duplicateMobileClinicRequest
      ⟨400, "Mobile number already exists. Please use a different number."⟩ (by decide)
  · exact (failed_mutation_leaves_store_unchanged clinicAndUserStore).2.1 99
      ⟨404, "Clinic with id " ++ toString 99 ++ " not found"⟩ (by decide)
  · exact (failed_mutation_leaves_store_unchanged clinicAndUserStore).2.2.1 99 patientRequest
      ⟨404, "Clinic with id " ++ toString 99 ++ " not found"⟩ (by decide)
  · exact (failed_mutation_leaves_store_unchanged clinicAndUserStore).2.2.2.1 99 7 3
      consultationRequest ⟨404, "Clinic with id " ++ toString 99 ++ " not found"⟩ (by decide)
  · exact (failed_mutation_leaves_store_unchanged clinicAndUserStore).2.2.2.2.1
      duplicateUsernameRequest 1 ⟨400, "Username already registered"⟩ (by decide)
  · exact (failed_mutation_leaves_store_unchanged clinicAndUserStore).2.2.2.2.2.1 99 3
      emptyPatientUpdate ⟨404, "Clinic id " ++ toString 99 ++ " does not exist"⟩ (by decide)
  · exact (failed_mutation_leaves_store_unchanged clinicAndUserStore).2.2.2.2.2.2.1 99
      doctorRequest ⟨404, "Clinic with id " ++ toString 99 ++ " not found"⟩ (by decide)
  · exact (failed_mutation_leaves_store_unchanged clinicAndUserStore).2.2.2.2.2.2.2.1 99
      emptyClinicUpdate ⟨404, "Clinic with id " ++ toString 99 ++ " not found"⟩ (by decide)
  · exact (failed_mutation_leaves_store_unchanged clinicAndUserStore).2.2.2.2.2.2.2.2.1 99 1
      emptyDoctorUpdate ⟨404, "Clinic id " ++ toString 99 ++ " does not exist"⟩ (by decide)
  · exact (failed_mutation_leaves_store_unchanged clinicAndUserStore).2.2.2.2.2.2.2.2.2.1 99 1
      ⟨404, "Clinic id " ++ toString 99 ++ " does not exist"⟩ (by decide)
  · exact (failed_mutation_leaves_store_unchanged clinicAndUserStore).2.2.2.2.2.2.2.2.2.2 99 3
      ⟨404, "Clinic id " ++ toString 99 ++ " does not exist"⟩ (by decide)

/-! ### Claim C9: username uniqueness -/

/-- Claim C9: the users table schema of models.py does not enforce username
uniqueness — two rows sharing the username alice satisfy every unique
constraint the schema declares (distinct primary keys and distinct unique
emails), contradicting the claim that the schema makes duplicate usernames
impossible. -/
theorem users_schema_admits_duplicate_usernames :
    usersSchemaOk
      [⟨1, "alice", "alice1@x", hash_password "pw1" 0, "A", "user", true⟩,
       ⟨2, "alice", "alice2@x", hash_password "pw2" 0, "B", "user", true⟩] = true
    ∧ (⟨1, "alice", "alice1@x", hash_password "pw1" 0, "A", "user", true⟩ : User).username =
      (⟨2, "alice", "alice2@x", hash_password "pw2" 0, "B", "user", true⟩ : User).username :=
  ⟨by decide, rfl⟩

/-! ### Claim C10: listing children of an empty clinic -/

/-- Claim C10: for an existing clinic with no doctors, the doctor listing
handler raises 404 instead of returning the empty list (and likewise for
patients), because it tests the query result for truthiness. -/
theorem empty_listing_returns_404 :
    ∀ (clinic_id : Nat) (db : Store),
      ((db.clinics.find? (fun c => c.clinic_id == clinic_id)).isSome →
        db.doctors.filter (fun d => d.clinic_id == clinic_id) = [] →
        get_doctors_by_clinic clinic_id db =
          .error ⟨404, "No doctors found for clinic with id " ++ toString clinic_id⟩)
      ∧ ((db.clinics.find? (fun c => c.clinic_id == clinic_id)).isSome →
          db.patients.filter (fun p => p.clinic_id == clinic_id) = [] →
          get_patients_by_clinic clinic_id db =
            .error ⟨404, "No Patients found for clinic with id " ++ toString clinic_id⟩) := by
  intro clinic_id db
  constructor
  · intro hsome hempty
    unfold get_doctors_by_clinic
    cases hfind : db.clinics.find? (fun c => c.clinic_id == clinic_id) with
    | none => rw [hfind] at hsome; simp at hsome
    | some c => simp [hempty]
  · intro hsome hempty
    unfold get_patients_by_clinic
    cases hfind : db.clinics.find? (fun c => c.clinic_id == clinic_id) with
    | none => rw [hfind] at hsome; simp at hsome
    | some c => simp [hempty]

/-- Claim C10, witness: the listing theorem applied to the store holding
only clinic 1. -/
theorem empty_listing_returns_404_witness :
    get_doctors_by_clinic 1 lonelyClinicStore =
      .error ⟨404, "No doctors found for clinic with id " ++ toString 1⟩
    ∧ get_patients_by_clinic 1 lonelyClinicStore =
      .error ⟨404, "No Patients found for clinic with id " ++ toString 1⟩ :=
  ⟨(empty_listing_returns_404 1 lonelyClinicStore).1 (by decide) (by decide),
   (empty_listing_returns_404 1 lonelyClinicStore).2 (by decide) (by decide)⟩

end ClinicMgmt
